import Mathlib

/-!
Verification of the trivia API backend
(`projects/02_trivia_api/starter/backend/flaskr/__init__.py`).

The Flask request handlers are shallowly embedded as pure Lean functions.
The relational store is modelled as a `List Question` / `List Category`
passed explicitly; SQLAlchemy query combinators become the corresponding
list operations.  A handler's outcome is `Except HandlerErr R`:
`Except.error e` stands for an HTTP error response with the status that
`e` names, `Except.ok r` for a JSON success body of shape `R`.
Exceptions that escape every `try` block (and therefore surface as a 500
through Flask's error machinery) are modelled as `HandlerErr.serverFault`.
-/

namespace Trivia

/-- A row of the `questions` table: id, question text, answer text,
category id, difficulty. -/
structure Question where
  id : Nat
  question : String
  answer : String
  category : Nat
  difficulty : Nat
deriving DecidableEq, Repr

/-- A row of the `categories` table: id and type label. -/
structure Category where
  id : Nat
  type : String
deriving DecidableEq, Repr

/-- The JSON object produced for one question. -/
structure FormattedQuestion where
  id : Nat
  question : String
  answer : String
  category : Nat
  difficulty : Nat
deriving DecidableEq, Repr

/-- Modelled from the spec: `Question.format()` lives in `models.py`,
which is not part of the sources; the spec says each question is
formatted to `{id, question, answer, difficulty, category}`. -/
def Question.format (q : Question) : FormattedQuestion :=
  { id := q.id, question := q.question, answer := q.answer,
    category := q.category, difficulty := q.difficulty }

/-- HTTP error outcomes of a handler.  `serverFault` stands for an
uncaught Python exception, which Flask turns into a 500 response. -/
inductive HandlerErr where
  | notFound        -- abort(404)
  | badRequest      -- abort(400)
  | unprocessable   -- abort(422)
  | serverFault     -- uncaught exception → 500
deriving DecidableEq, Repr

/-- `QUESTIONS_PER_PAGE = 10`. -/
def QUESTIONS_PER_PAGE : Nat := 10

/-- `paginate_questions(request, selection)`: reads the 1-indexed `page`
query parameter, formats every row of `selection`, and returns the slice
`questions[(page-1)*10 : (page-1)*10 + 10]`. -/
def paginate_questions (page : Nat) (selection : List Question) :
    List FormattedQuestion :=
  let start := (page - 1) * QUESTIONS_PER_PAGE
  let questions := selection.map Question.format
  (questions.drop start).take QUESTIONS_PER_PAGE

/-- Python's `l[start:stop]` for non-negative bounds: out-of-range bounds
clip to the list, never error. -/
def pySlice (start stop : Nat) (l : List α) : List α :=
  (l.drop start).take (stop - start)

/-- Python `dict` assignment `d[k] = v` on an association list: an
existing key is updated in place, a new key is appended (insertion
order). -/
def dictInsert (d : List (Nat × String)) (k : Nat) (v : String) :
    List (Nat × String) :=
  if d.any (fun p => p.1 == k) then
    d.map (fun p => if p.1 == k then (k, v) else p)
  else
    d ++ [(k, v)]

/-- The `categories_dict` built by
`for category in categories: categories_dict[category.id] = category.type`. -/
def categories_dict (cats : List Category) : List (Nat × String) :=
  cats.foldl (fun d c => dictInsert d c.id c.type) []

/-- Insert a question into a list sorted by ascending id. -/
def insertById (q : Question) : List Question → List Question
  | [] => [q]
  | p :: ps => if q.id ≤ p.id then q :: p :: ps else p :: insertById q ps

/-- `Question.query.order_by(Question.id).all()`: the stored questions
sorted by ascending id. -/
def orderById : List Question → List Question
  | [] => []
  | q :: qs => insertById q (orderById qs)

/-- SQLAlchemy `one_or_none()`: `none` for an empty result, the row for a
singleton, and an error (`MultipleResultsFound`) otherwise. -/
def one_or_none : List α → Except Unit (Option α)
  | [] => .ok none
  | [a] => .ok (some a)
  | _ :: _ :: _ => .error ()

/-- Success body of `GET /questions`. -/
structure QuestionsResp where
  questions : List FormattedQuestion
  total_questions : Nat
  categories : List (Nat × String)
  current_category : Nat × String
deriving DecidableEq, Repr

/-- `GET /questions` (`get_questions`): paginates all questions ordered
by id, builds the id→type category dict, takes `l[-1]` of that dict
(an uncaught `IndexError` when it is empty — there is no `try` here),
then 404s when the page slice is empty, else answers with the page, the
unpaginated total, the dict and the incidental `current_category`. -/
def get_questions (db : List Question) (cats : List Category)
    (page : Nat) : Except HandlerErr QuestionsResp :=
  let selection := orderById db
  let current_questions := paginate_questions page selection
  let cdict := categories_dict cats
  match cdict.getLast? with
  | none => .error .serverFault
  | some current_category =>
    if current_questions.length == 0 then
      .error .notFound
    else
      .ok { questions := current_questions, total_questions := db.length,
            categories := cdict, current_category := current_category }

/-- Success body of `GET /categories/{id}/questions`. -/
structure CatQuestionsResp where
  questions : List FormattedQuestion
  total_questions : Nat
  current_category : String
deriving DecidableEq, Repr

/-- `GET /categories/{category_id}/questions`
(`get_questions_by_category`): looks the category up with
`one_or_none` (no `try`: several matches would be an uncaught fault),
400s when it is absent, else filters the questions by that category id,
paginates, and answers with the page, `len(Question.query.all())` (the
count of ALL questions) and the category's type.  No empty-page check. -/
def get_questions_by_category (db : List Question) (cats : List Category)
    (category_id : Nat) (page : Nat) : Except HandlerErr CatQuestionsResp :=
  match one_or_none (cats.filter (fun c => c.id == category_id)) with
  | .error _ => .error .serverFault
  | .ok none => .error .badRequest
  | .ok (some category) =>
    let selection := db.filter (fun q => q.category == category.id)
    .ok { questions := paginate_questions page selection,
          total_questions := db.length,
          current_category := category.type }

/-- Success body of `DELETE /questions/{id}`. -/
structure DeleteResp where
  deleted : Nat
  questions : List FormattedQuestion
  total_questions : Nat
deriving DecidableEq, Repr

/-- The `try` body of `delete_question`: look the question up with
`one_or_none`, `abort(404)` when absent, else delete the row,
re-paginate the remaining questions and answer. -/
def delete_question_body (db : List Question) (question_id : Nat)
    (page : Nat) : Except HandlerErr DeleteResp :=
  match one_or_none (db.filter (fun q => q.id == question_id)) with
  | .error _ => .error .unprocessable
  | .ok none => .error .notFound
  | .ok (some q) =>
    let db' := db.filter (fun r => ¬ r.id = q.id)
    let selection := orderById db'
    .ok { deleted := question_id,
          questions := paginate_questions page selection,
          total_questions := db'.length }

/-- `DELETE /questions/{question_id}` (`delete_question`): the whole
body sits in `try: ... except: abort(422)`, and Flask's `abort(404)`
raises an exception, so the bare `except` catches it too — every error
path, the missing-question one included, comes out as 422. -/
def delete_question (db : List Question) (question_id : Nat)
    (page : Nat) : Except HandlerErr DeleteResp :=
  match delete_question_body db question_id page with
  | .ok r => .ok r
  | .error _ => .error .unprocessable

/-- `f` holds of some suffix of the string (used for the `%` wildcard,
which consumes any run of characters). -/
def suffixAny (f : List Char → Bool) : List Char → Bool
  | [] => f []
  | c :: s => f (c :: s) || suffixAny f s

/-- SQL `LIKE` matching of a pattern against a string: `%` matches any
run of characters, `_` any single character, any other character
itself. -/
def likeMatch : List Char → List Char → Bool
  | [], s => s.isEmpty
  | '%' :: ps, s => suffixAny (likeMatch ps) s
  | '_' :: ps, s =>
    match s with
    | [] => false
    | _ :: s' => likeMatch ps s'
  | p :: ps, s =>
    match s with
    | [] => false
    | c :: s' => p == c && likeMatch ps s'

/-- SQLAlchemy `column.ilike(pattern)`: case-insensitive `LIKE`, here
lower-casing both sides character by character. -/
def ilike (text pattern : String) : Bool :=
  likeMatch (pattern.toList.map Char.toLower)
    (text.toList.map Char.toLower)

/-- The JSON body of `POST /questions`; `body.get(field, None)` yields
`none` for an absent field. -/
structure CreateBody where
  question : Option String
  answer : Option String
  category : Option Nat
  difficulty : Option Nat
  searchTerm : Option String
deriving DecidableEq, Repr

/-- Success bodies of `POST /questions`: the search branch and the
create branch answer different shapes. -/
inductive CreateResp where
  | searched (questions : List FormattedQuestion) (total_questions : Nat)
  | created (created : Nat) (question_created : String)
      (questions : List FormattedQuestion) (total_questions : Nat)
deriving DecidableEq, Repr

/-- Modelled from the spec: the inserted question's id is
server-generated and unique (`models.py` is not in the sources);
modelled as one past the largest id in use. -/
def fresh_id (db : List Question) : Nat :=
  db.foldl (fun m q => max m q.id) 0 + 1

/-- `POST /questions` (`create_question`).  `body = request.get_json()`
and the five `body.get` calls run BEFORE the `try`, so a missing or
non-object JSON body (`body? = none`) is an uncaught `AttributeError`
— a 500, not the endpoint's 422.  Inside the `try`: a truthy
`searchTerm` selects the search branch (matching questions via
`ilike('%term%')`, answering `questions: [], total_questions: 0`
without paginating when there are no matches); otherwise the create
branch inserts the new row and answers with a re-paginated page.
Absent content fields persist as null, modelled by defaults. -/
def create_question (db : List Question) (body? : Option CreateBody)
    (page : Nat) : Except HandlerErr CreateResp :=
  match body? with
  | none => .error .serverFault
  | some body =>
    let search := body.searchTerm.getD ""
    let inner : Except HandlerErr CreateResp :=
      if search ≠ "" then
        let selection := (orderById db).filter
          (fun q => ilike q.question ("%" ++ search ++ "%"))
        if selection.length == 0 then
          .ok (.searched [] 0)
        else
          .ok (.searched (paginate_questions page selection)
                selection.length)
      else
        let q : Question :=
          { id := fresh_id db, question := body.question.getD "",
            answer := body.answer.getD "",
            category := body.category.getD 0,
            difficulty := body.difficulty.getD 0 }
        let db' := db ++ [q]
        .ok (.created q.id q.question
              (paginate_questions page (orderById db')) db'.length)
    match inner with
    | .ok r => .ok r
    | .error _ => .error .unprocessable

/-- The `quiz_category` object of a `POST /quizzes` body. -/
structure QuizCat where
  id : Nat
deriving DecidableEq, Repr

/-- The JSON body of `POST /quizzes`; each field is `none` when absent
(or, for `quiz_category`, not an object with an `id`). -/
structure QuizBody where
  previous_questions : Option (List Nat)
  quiz_category : Option QuizCat
deriving DecidableEq, Repr

/-- Success body of `POST /quizzes`: `question` is absent when the
candidate set is exhausted. -/
structure QuizResp where
  question : Option FormattedQuestion
deriving DecidableEq, Repr

/-- `check_if_used(question)`: scans `previous` with a flag, exactly the
`for x in previous: if x == question.id: used = True` loop. -/
def check_if_used (previous : List Nat) (question : Question) : Bool :=
  previous.foldl (fun used x => if x == question.id then true else used)
    false

/-- Outcome of the quiz selector's `while` loop. -/
inductive QuizOut where
  | withQ (q : Question)     -- found an unused question
  | exhausted                -- stopped on len(previous) == total_questions
  | fault                    -- IndexError on an invalid draw
deriving DecidableEq, Repr

/-- The quiz selector's `while check_if_used(question)` loop, with the
stream of random draws made explicit as a list of indices (`none` when
the supplied draws run out before the loop exits, i.e. the modelled
randomness is not enough to decide the run).  Body: draw a new
question, then stop with the exhaustion response if
`len(previous_questions) == total_questions`, else test the new
question on the next round. -/
def quizWhile (previous : List Nat) (qs : List Question) :
    List Nat → Question → Option QuizOut
  | [], question =>
    if check_if_used previous question then none
    else some (.withQ question)
  | d :: ds, question =>
    if check_if_used previous question then
      match qs.get? d with
      | none => some .fault
      | some question' =>
        if previous.length == qs.length then some .exhausted
        else quizWhile previous qs ds question'
    else some (.withQ question)

/-- The quiz loop's exits mapped to the JSON responses: a found
question gives `{success, question}`, exhaustion gives `{success}`
without a `question` field, a faulting draw is caught → 400. -/
def quizOutToResp : Option QuizOut → Option (Except HandlerErr QuizResp)
  | none => none
  | some (.withQ q) => some (.ok ⟨some q.format⟩)
  | some .exhausted => some (.ok ⟨none⟩)
  | some .fault => some (.error .badRequest)

/-- The drawing part of the quiz selector, over the computed candidate
set: `random.randrange(0, 0)` on an empty candidate set raises (caught
→ 400); an out-of-range draw is an `IndexError` (caught → 400);
iterating a missing `previous_questions` raises on the first
`check_if_used` call (caught → 400); otherwise the `while` loop runs as
in `quizWhile`. -/
def quiz_draw_loop (questions : List Question)
    (previous? : Option (List Nat)) :
    List Nat → Option (Except HandlerErr QuizResp)
  | [] => if questions.isEmpty then some (.error .badRequest) else none
  | d :: ds =>
    if questions.isEmpty then some (.error .badRequest)
    else
      match questions.get? d, previous? with
      | none, _ => some (.error .badRequest)
      | some _, none => some (.error .badRequest)
      | some question, some previous =>
        quizOutToResp (quizWhile previous questions ds question)

/-- `POST /quizzes` (`get_random_quiz_question`).  `request.get_json()`
and the two `body.get` calls run BEFORE the `try`, so a missing or
non-object body is an uncaught fault (500).  Inside the `try`:
`category['id']` on a missing `quiz_category` raises (caught → 400);
the candidate set is all questions for category id 0, else the
questions of that category; then the draw loop runs
(`quiz_draw_loop`). -/
def get_random_quiz_question (db : List Question)
    (body? : Option QuizBody) (draws : List Nat) :
    Option (Except HandlerErr QuizResp) :=
  match body? with
  | none => some (.error .serverFault)
  | some body =>
    match body.quiz_category with
    | none => some (.error .badRequest)
    | some category =>
      let questions :=
        if category.id == 0 then db
        else db.filter (fun q => q.category == category.id)
      quiz_draw_loop questions body.previous_questions draws

end Trivia

namespace Trivia

/-- **C1.** For every page number `p ≥ 1` and ordered list of questions,
`paginate_questions` returns exactly the Python slice
`items[(p-1)*10 : (p-1)*10+10]` of the formatted items; in particular it
has at most 10 elements, and when the slice is out of range it returns
`[]` rather than an error. -/
theorem paginate_returns_slice (p : Nat) (items : List Question)
    (_hp : 1 ≤ p) :
    paginate_questions p items
        = pySlice ((p - 1) * 10) ((p - 1) * 10 + 10) (items.map Question.format)
    ∧ (paginate_questions p items).length ≤ 10
    ∧ ((items.map Question.format).length ≤ (p - 1) * 10 →
        paginate_questions p items = []) := by
  refine ⟨?_, ?_, ?_⟩
  · simp [paginate_questions, pySlice, QUESTIONS_PER_PAGE]
  · simp only [paginate_questions, QUESTIONS_PER_PAGE]
    exact le_trans (List.length_take_le _ _) (le_refl _)
  · intro h
    simp only [paginate_questions, QUESTIONS_PER_PAGE]
    rw [List.drop_eq_nil_of_le]
    · simp
    · simpa using h

/-- Witness for C1 at `p = 2` on a 12-question list: the second page is
the two remaining formatted questions. -/
theorem paginate_returns_slice_witness :
    (1 : Nat) ≤ 2 ∧
      paginate_questions 2 (List.range 12 |>.map
          (fun i => ⟨i, "q", "a", 1, 1⟩))
        = pySlice 10 20 ((List.range 12 |>.map
            (fun i => (⟨i, "q", "a", 1, 1⟩ : Question))).map Question.format) := by
  refine ⟨by decide, ?_⟩
  exact (paginate_returns_slice 2 _ (by decide)).1

/-- Sample data shared by the concrete witnesses below. -/
def qScience : Question := ⟨1, "What is H2O?", "Water", 1, 2⟩

def qArt : Question := ⟨2, "Who painted the Mona Lisa?", "Da Vinci", 2, 3⟩

def cScience : Category := ⟨1, "Science"⟩

/-- A Python dict assignment never produces an empty dict. -/
theorem dictInsert_ne_nil (d : List (Nat × String)) (k : Nat) (v : String) :
    dictInsert d k v ≠ [] := by
  unfold dictInsert
  split
  · rename_i h
    intro hnil
    rw [List.map_eq_nil_iff] at hnil
    rw [hnil] at h
    simp at h
  · simp

/-- Folding dict assignments over the categories keeps the dict
non-empty once it is non-empty. -/
theorem categories_fold_ne_nil (cs : List Category)
    (d : List (Nat × String)) (hd : d ≠ []) :
    cs.foldl (fun d c => dictInsert d c.id c.type) d ≠ [] := by
  induction cs generalizing d with
  | nil => simpa using hd
  | cons c cs ih =>
    simp only [List.foldl_cons]
    exact ih _ (dictInsert_ne_nil d c.id c.type)

/-- When at least one category row exists, `categories_dict` is
non-empty. -/
theorem categories_dict_ne_nil (cats : List Category) (h : cats ≠ []) :
    categories_dict cats ≠ [] := by
  cases cats with
  | nil => exact absurd rfl h
  | cons c cs =>
    unfold categories_dict
    simp only [List.foldl_cons]
    exact categories_fold_ne_nil cs _ (dictInsert_ne_nil [] c.id c.type)

/-- **C7 counterexample.** With an empty category table and an empty
(paginated) question slice, `GET /questions` does not answer 404: the
`l[-1]` on the empty category dict faults first.  The claim as stated,
which promises NotFound for every empty slice, is therefore false. -/
theorem get_questions_empty_slice_not_404 :
    get_questions [] [] 1 ≠ Except.error HandlerErr.notFound := by
  intro h
  have h2 : (Except.error HandlerErr.serverFault :
      Except HandlerErr QuestionsResp) = .error .notFound := h
  exact HandlerErr.noConfusion (Except.error.inj h2)

/-- **C7 (amended).** Provided at least one category row exists, a
`GET /questions` request whose paginated slice is empty fails with
NotFound, and otherwise answers success with the page of questions and
`total_questions` equal to the unpaginated count of all questions. -/
theorem get_questions_spec (db : List Question) (cats : List Category)
    (page : Nat) (hcats : cats ≠ []) :
    (paginate_questions page (orderById db) = [] →
        get_questions db cats page = .error .notFound)
    ∧ (paginate_questions page (orderById db) ≠ [] →
        ∃ r, get_questions db cats page = .ok r
          ∧ r.questions = paginate_questions page (orderById db)
          ∧ r.total_questions = db.length) := by
  have h1 : (categories_dict cats).getLast? ≠ none := by
    rw [Ne, List.getLast?_eq_none_iff]
    exact categories_dict_ne_nil cats hcats
  obtain ⟨lc, hlc⟩ := Option.ne_none_iff_exists'.mp h1
  constructor
  · intro hemp
    simp [get_questions, hlc, hemp]
  · intro hne
    refine ⟨{ questions := paginate_questions page (orderById db),
              total_questions := db.length,
              categories := categories_dict cats,
              current_category := lc }, ?_, rfl, rfl⟩
    simp only [get_questions, hlc]
    rw [if_neg]
    simp only [beq_iff_eq, List.length_eq_zero]
    exact hne

/-- Witness for the amended C7: one question, one category, page 5 is
past the data, so the handler 404s. -/
theorem get_questions_spec_witness :
    get_questions [qScience] [cScience] 5 = .error .notFound := by
  exact (get_questions_spec [qScience] [cScience] 5 (by simp)).1 rfl

/-- **C8.** When the category table is empty, `GET /questions` evaluates
`l[-1]` on the empty category list before its empty-page check, so the
request ends in an uncaught indexing fault (a 500), never the documented
404 — even when the question table is empty too. -/
theorem get_questions_empty_categories_fault (db : List Question)
    (page : Nat) :
    get_questions db [] page = .error .serverFault
    ∧ get_questions db [] page ≠ .error .notFound := by
  have h0 : get_questions db [] page = .error .serverFault := rfl
  refine ⟨h0, ?_⟩
  rw [h0]
  intro h
  exact HandlerErr.noConfusion (Except.error.inj h)

/-- **C6.** For an existing category id, `GET /categories/{id}/questions`
reports `total_questions` as the count of ALL stored questions
(`db.length`), while the `questions` field holds only the paginated
questions filtered to that category. -/
theorem by_category_total_counts_all (db : List Question)
    (cats : List Category) (cid : Nat) (c : Category) (page : Nat)
    (hone : cats.filter (fun cat => cat.id == cid) = [c]) :
    get_questions_by_category db cats cid page
      = .ok { questions :=
                paginate_questions page
                  (db.filter (fun q => q.category == c.id)),
              total_questions := db.length,
              current_category := c.type } := by
  simp [get_questions_by_category, hone, one_or_none]

/-- Witness for C6: two questions in storage, one in category 1; the
response still reports `total_questions = 2`. -/
theorem by_category_total_counts_all_witness :
    get_questions_by_category [qScience, qArt] [cScience] 1 1
      = .ok { questions := [qScience.format], total_questions := 2,
              current_category := "Science" } := by
  exact (by_category_total_counts_all [qScience, qArt] [cScience] 1
    cScience 1 rfl).trans rfl

/-- **C10.** For an existing category id,
`GET /categories/{id}/questions` never fails on an empty result: the
response is a success whose `questions` field is the paginated filtered
list, which may be empty (there is no empty-page 404 check in this
handler). -/
theorem by_category_empty_is_success (db : List Question)
    (cats : List Category) (cid : Nat) (c : Category) (page : Nat)
    (hone : cats.filter (fun cat => cat.id == cid) = [c]) :
    ∃ r, get_questions_by_category db cats cid page = Except.ok r
      ∧ r.questions
          = paginate_questions page
              (db.filter (fun q => q.category == c.id)) := by
  refine ⟨{ questions :=
              paginate_questions page
                (db.filter (fun q => q.category == c.id)),
            total_questions := db.length,
            current_category := c.type }, ?_, rfl⟩
  simp [get_questions_by_category, hone, one_or_none]

/-- Witness for C10: category 1 exists but owns no questions, and the
handler still answers success with an empty page. -/
theorem by_category_empty_is_success_witness :
    ∃ r, get_questions_by_category [qArt] [cScience] 1 1 = Except.ok r
      ∧ r.questions = [] := by
  obtain ⟨r, h1, h2⟩ :=
    by_category_empty_is_success [qArt] [cScience] 1 cScience 1 rfl
  exact ⟨r, h1, h2.trans rfl⟩

/-- **C2 (code bug).** Deleting a question id that does not exist: the
`try` body signals NotFound via `abort(404)`, but that abort is an
exception, so the handler's bare `except: abort(422)` swallows it and
the request answers 422, not the 404 the claim (and the `abort(404)`
in the code itself) intends. -/
theorem delete_missing_question_is_422 :
    delete_question [] 1 1 = .error .unprocessable
    ∧ delete_question [] 1 1 ≠ .error .notFound
    ∧ delete_question_body [] 1 1 = .error .notFound := by
  refine ⟨rfl, ?_, rfl⟩
  intro h
  have h2 : (Except.error HandlerErr.unprocessable :
      Except HandlerErr DeleteResp) = .error .notFound := h
  exact HandlerErr.noConfusion (Except.error.inj h2)

/-- The `check_if_used` flag loop, with its accumulator generalized. -/
theorem check_if_used_foldl (q : Question) (l : List Nat) (b : Bool) :
    l.foldl (fun used x => if x == q.id then true else used) b
      = (b || l.any (fun x => x == q.id)) := by
  induction l generalizing b with
  | nil => simp
  | cons x xs ih =>
    simp only [List.foldl_cons, List.any_cons]
    rw [ih]
    by_cases h : (x == q.id) = true
    · simp [h]
    · simp [h]

/-- `check_if_used` answers false exactly when the question's id is not
among `previous_questions`. -/
theorem check_if_used_false_iff (previous : List Nat) (q : Question) :
    check_if_used previous q = false ↔ q.id ∉ previous := by
  unfold check_if_used
  rw [check_if_used_foldl]
  simp only [Bool.false_or, ← Bool.not_eq_true, List.any_eq_true,
    beq_iff_eq]
  constructor
  · intro h hmem
    exact h ⟨q.id, hmem, rfl⟩
  · rintro h ⟨x, hx, he⟩
    exact h (he ▸ hx)

/-- Whenever the quiz `while` loop exits with a question, that question
is unused. -/
theorem quizWhile_withQ_not_used (previous : List Nat)
    (qs : List Question) (ds : List Nat) (q q' : Question)
    (h : quizWhile previous qs ds q = some (.withQ q')) :
    check_if_used previous q' = false := by
  induction ds generalizing q with
  | nil =>
    simp only [quizWhile] at h
    by_cases hc : check_if_used previous q = true
    · rw [if_pos hc] at h
      simp at h
    · rw [if_neg hc] at h
      injection h with h1
      injection h1 with h2
      subst h2
      simpa using hc
  | cons d ds ih =>
    simp only [quizWhile] at h
    by_cases hc : check_if_used previous q = true
    · rw [if_pos hc] at h
      cases hget : qs.get? d with
      | none =>
        rw [hget] at h
        simp at h
      | some q2 =>
        rw [hget] at h
        have h' : (if (previous.length == qs.length) = true
              then some QuizOut.exhausted
              else quizWhile previous qs ds q2)
            = some (QuizOut.withQ q') := h
        by_cases hlen : (previous.length == qs.length) = true
        · rw [if_pos hlen] at h'
          simp at h'
        · rw [if_neg hlen] at h'
          exact ih q2 h'
    · rw [if_neg hc] at h
      injection h with h1
      injection h1 with h2
      subst h2
      simpa using hc

/-- Whenever the quiz `while` loop exits with the exhaustion response,
the equality `len(previous_questions) == total_questions` held. -/
theorem quizWhile_exhausted_len (previous : List Nat)
    (qs : List Question) (ds : List Nat) (q : Question)
    (h : quizWhile previous qs ds q = some .exhausted) :
    previous.length = qs.length := by
  induction ds generalizing q with
  | nil =>
    simp only [quizWhile] at h
    by_cases hc : check_if_used previous q = true
    · rw [if_pos hc] at h
      simp at h
    · rw [if_neg hc] at h
      simp at h
  | cons d ds ih =>
    simp only [quizWhile] at h
    by_cases hc : check_if_used previous q = true
    · rw [if_pos hc] at h
      cases hget : qs.get? d with
      | none =>
        rw [hget] at h
        simp at h
      | some q2 =>
        rw [hget] at h
        have h' : (if (previous.length == qs.length) = true
              then some QuizOut.exhausted
              else quizWhile previous qs ds q2)
            = some QuizOut.exhausted := h
        by_cases hlen : (previous.length == qs.length) = true
        · exact beq_iff_eq.mp hlen
        · rw [if_neg hlen] at h'
          exact ih q2 h'
    · rw [if_neg hc] at h
      simp at h

/-- If the draw loop answers success with a `question` field, that
question's id is not in `previous_questions`. -/
theorem quiz_draw_loop_never_repeats (questions : List Question)
    (previous : List Nat) (draws : List Nat) (resp : QuizResp)
    (fq : FormattedQuestion)
    (hrun : quiz_draw_loop questions (some previous) draws
              = some (.ok resp))
    (hq : resp.question = some fq) :
    fq.id ∉ previous := by
  cases draws with
  | nil =>
    simp only [quiz_draw_loop] at hrun
    by_cases hemp : questions.isEmpty = true
    · rw [if_pos hemp] at hrun
      simp at hrun
    · rw [if_neg hemp] at hrun
      simp at hrun
  | cons d ds =>
    simp only [quiz_draw_loop] at hrun
    by_cases hemp : questions.isEmpty = true
    · rw [if_pos hemp] at hrun
      simp at hrun
    · rw [if_neg hemp] at hrun
      cases hget : questions.get? d with
      | none =>
        rw [hget] at hrun
        simp at hrun
      | some question =>
        rw [hget] at hrun
        have hrun' : quizOutToResp (quizWhile previous questions ds question)
            = some (.ok resp) := hrun
        cases hw : quizWhile previous questions ds question with
        | none =>
          rw [hw] at hrun'
          simp [quizOutToResp] at hrun'
        | some out =>
          rw [hw] at hrun'
          cases out with
          | fault => simp [quizOutToResp] at hrun'
          | exhausted =>
            simp only [quizOutToResp] at hrun'
            injection hrun' with h1
            injection h1 with h2
            subst h2
            simp at hq
          | withQ q =>
            simp only [quizOutToResp] at hrun'
            injection hrun' with h1
            injection h1 with h2
            subst h2
            injection hq with h3
            subst h3
            have hc := quizWhile_withQ_not_used previous questions ds
              question q hw
            exact (check_if_used_false_iff previous q).mp hc

/-- **C3.** If `POST /quizzes` answers success with a `question` field,
the id of that question is not an element of the supplied
`previous_questions` list (for any body and any stream of random
draws, in particular for a non-empty, non-exhausted candidate set). -/
theorem quiz_never_repeats (db : List Question) (body : QuizBody)
    (draws : List Nat) (previous : List Nat) (resp : QuizResp)
    (fq : FormattedQuestion)
    (hprev : body.previous_questions = some previous)
    (hrun : get_random_quiz_question db (some body) draws
              = some (.ok resp))
    (hq : resp.question = some fq) :
    fq.id ∉ previous := by
  simp only [get_random_quiz_question, hprev] at hrun
  cases hcat : body.quiz_category with
  | none =>
    rw [hcat] at hrun
    simp at hrun
  | some category =>
    rw [hcat] at hrun
    exact quiz_draw_loop_never_repeats _ previous draws resp fq hrun hq

/-- Witness for C3: one science question, empty history — the handler
returns it, and its id is (vacuously) not in the empty history. -/
theorem quiz_never_repeats_witness :
    (Question.format qScience).id ∉ ([] : List Nat) := by
  exact quiz_never_repeats [qScience] ⟨some [], some ⟨1⟩⟩ [0] []
    ⟨some (Question.format qScience)⟩ (Question.format qScience)
    rfl rfl rfl

/-- **C4.** In the quiz loop, after a draw made because the current
question was already used, if `len(previous_questions)` equals the
size of the candidate set the loop stops with the exhaustion response
(no `question` field); and conversely that equality is the only way the
loop ends in exhaustion — its only other exit is an unused question. -/
theorem quiz_exhaustion_equality :
    (∀ (previous : List Nat) (qs : List Question) (q : Question)
        (d : Nat) (ds : List Nat),
        check_if_used previous q = true → d < qs.length →
        previous.length = qs.length →
        quizWhile previous qs (d :: ds) q = some .exhausted)
    ∧ (∀ (previous : List Nat) (qs : List Question) (ds : List Nat)
        (q : Question),
        quizWhile previous qs ds q = some .exhausted →
        previous.length = qs.length)
    ∧ quizOutToResp (some .exhausted)
        = some (.ok { question := none }) := by
  refine ⟨?_, ?_, rfl⟩
  · intro previous qs q d ds hused hd hlen
    simp only [quizWhile]
    rw [if_pos hused]
    cases hget : qs.get? d with
    | none =>
      have := List.get?_eq_none.mp hget
      omega
    | some q2 =>
      show (if (previous.length == qs.length) = true
            then some QuizOut.exhausted
            else quizWhile previous qs ds q2) = some QuizOut.exhausted
      rw [if_pos (beq_iff_eq.mpr hlen)]
  · intro previous qs ds q h
    exact quizWhile_exhausted_len previous qs ds q h

/-- Witness for C4: history `[1]` covers the single candidate; a redraw
from a used question stops the loop with the exhaustion outcome. -/
theorem quiz_exhaustion_equality_witness :
    quizWhile [1] [qScience] [0] qScience = some .exhausted
    ∧ [1].length = [qScience].length := by
  constructor
  · exact quiz_exhaustion_equality.1 [1] [qScience] qScience 0 []
      (by decide) (by decide) rfl
  · exact quiz_exhaustion_equality.2.1 [1] [qScience] [0] qScience rfl

/-- **C5.** A `POST /questions` search whose non-empty `searchTerm`
matches no question answers `{success, questions: [], total_questions:
0}` for every page parameter, bypassing pagination, with no error. -/
theorem search_zero_matches (db : List Question) (body : CreateBody)
    (t : String) (page : Nat)
    (hterm : body.searchTerm = some t) (hne : t ≠ "")
    (hzero : ((orderById db).filter
        (fun q => ilike q.question ("%" ++ t ++ "%"))).length = 0) :
    create_question db (some body) page = .ok (.searched [] 0) := by
  simp only [create_question, hterm, Option.getD_some]
  rw [if_pos hne, if_pos (beq_iff_eq.mpr hzero)]

/-- Witness for C5: searching "zzz" over a one-question store matches
nothing, and page 7 still gets the immediate empty success. -/
theorem search_zero_matches_witness :
    create_question [qScience]
        (some ⟨none, none, none, none, some "zzz"⟩) 7
      = .ok (.searched [] 0) := by
  exact search_zero_matches [qScience] ⟨none, none, none, none, some "zzz"⟩
    "zzz" 7 rfl (by decide) (by decide)

/-- **C9.** In both POST handlers the JSON body fields are read before
the `try` block, so a missing or non-object body is an uncaught fault
(a 500), not the endpoint's 422 or 400. -/
theorem post_handlers_fault_on_missing_body (db : List Question)
    (page : Nat) (draws : List Nat) :
    create_question db none page = .error .serverFault
    ∧ get_random_quiz_question db none draws
        = some (.error .serverFault) :=
  ⟨rfl, rfl⟩

end Trivia
